import Mathlib

set_option maxRecDepth 10000
set_option linter.unusedVariables false

/-!
Verification of the fleet_management repository (agent configuration in
`src/maintenance_agent/agent.py`, `src/fleet_management_agent/agent.py` and
the tool layer `src/fleet_management_agent/tools.py`) against its
natural-language specification.

The tool functions are embedded directly from the Python source.  The
agent-orchestration runtime (`LoopAgent`, `SequentialAgent`) and the
`maintenance_agent` tools module (which provides `exit_loop`) are not part of
the provided sources, so the critic/refine/exit loop driver is modelled from
the specification's contracts (sections 4.1-4.4), parameterised over the two
external model calls (critique and refine-improvement).
-/

namespace FleetManagement

/-! ## String occurrence counting

Helper used to state facts about the literal instruction and query strings
of the source: `countOcc pat s` counts the (possibly overlapping) occurrences
of the non-empty character list `pat` inside `s`. -/

/-- `leadsWith pat s` is true when `pat` is an initial segment of `s`. -/
def leadsWith : List Char → List Char → Bool
  | [], _ => true
  | _ :: _, [] => false
  | p :: ps, c :: cs => p == c && leadsWith ps cs

/-- Number of positions of `s` at which `pat` starts. -/
def countOcc (pat : List Char) : List Char → Nat
  | [] => 0
  | c :: cs => (if leadsWith pat (c :: cs) then 1 else 0) + countOcc pat cs

/-- Occurrences of the string `pat` inside the string `s`. -/
def occurrencesIn (pat s : String) : Nat :=
  countOcc pat.toList s.toList

/-! ## Embedding of `src/fleet_management_agent/tools.py` -/

/-- A Python value as it appears in a BigQuery result row.  `pydate` is a
`datetime.date` carried by its ISO representation, `pydec` a
`decimal.Decimal` carried as a rational, `pyfloat` the result of Python's
`float` conversion and `pystr` any string value. -/
inductive PyVal where
  | pydate (iso : String)
  | pydec (q : Rat)
  | pyfloat (q : Rat)
  | pystr (s : String)
  deriving DecidableEq, Repr

/-- One result row: a Python dict from column names to values. -/
abbrev Row := List (String × PyVal)

/-- The per-cell conversion performed by `db_query`'s for-loop:
`datetime.date` values are replaced by `value.isoformat()` and
`decimal.Decimal` values by `float(value)`; everything else is untouched. -/
def convertCell : PyVal → PyVal
  | .pydate iso => .pystr iso
  | .pydec q => .pyfloat q
  | v => v

/-- The row conversion performed by `db_query`'s nested loop. -/
def convertRow (r : Row) : Row :=
  r.map (fun kv => (kv.1, convertCell kv.2))

/-- What the external BigQuery client does on one invocation: either produce
result rows or raise an exception carrying a message. -/
inductive BQOutcome where
  | rows (rs : List Row)
  | raises (msg : String)
  deriving DecidableEq, Repr

/-- The Python return value of `db_query`: either the converted row list or
the error dict `{"error": message}` built in the `except` branch. -/
inductive DbResult where
  | data (rows : List Row)
  | errorDict (message : String)
  deriving DecidableEq, Repr

/-- Embeds `db_query` of `src/fleet_management_agent/tools.py`.  The external
client is a function from the query text to an outcome; the second component
of the result counts how many times the client was invoked (the body invokes
it once, and the `except` branch returns the error dict without retrying). -/
def db_query (client : String → BQOutcome) (query : String) : DbResult × Nat :=
  match client query with
  | .rows rs => (.data (rs.map convertRow), 1)
  | .raises e => (.errorDict ("An error occured with BigQuery: " ++ e), 1)

/-- Embeds `notify` of `src/fleet_management_agent/tools.py`: the `try` body
immediately returns the success dict and can raise nothing. -/
def notifyBody : Except String (List (String × String)) :=
  .ok [("status", "success")]

/-- Embeds `notify`: run the `try` body; the `except` branch would build the
Teams error dict, but only if the body raised. -/
def notify (message : String) : List (String × String) :=
  match notifyBody with
  | .ok r => r
  | .error e => [("error", "An error occured with Teams: " ++ e)]

/-- The docstring of `vehicle_rental_query` (verbatim). -/
def vehicle_rental_query_docstring : String :=
  "\n    Retrieves the future rental dates of a vehicle from the database.\n\n    Args:\n        vehicle_id (str): The unique identifier of the vehicle.\n\n    Returns:\n        dict: The future rental dates of the vehicle.\n    "

/-- The SQL text built by `vehicle_rental_query`'s f-string (verbatim). -/
def vehicle_rental_query_sql (vehicle_id : String) : String :=
  "\n    SELECT *\n    FROM \x60EV_Predictive_Maintenance.RENTAL\x60\n    WHERE \x60Vehicle_ID\x60 = \x27" ++ vehicle_id ++ "\x27\n    AND \x60Date_From\x60 <= CURRENT_DATE()\n    ORDER BY \x60Date_From\x60 ASC\n    LIMIT 10\n    "

/-- Embeds `vehicle_rental_query`: build the SQL text and pass it to
`db_query`. -/
def vehicle_rental_query (client : String → BQOutcome) (vehicle_id : String) :
    DbResult × Nat :=
  db_query client (vehicle_rental_query_sql vehicle_id)

/-- The part of the built rental query before the interpolated vehicle id. -/
def rentalQueryHead : String :=
  "\n    SELECT *\n    FROM \x60EV_Predictive_Maintenance.RENTAL\x60\n    WHERE \x60Vehicle_ID\x60 = \x27"

/-- The constant tail of the built rental query, following the interpolated
vehicle id: it carries the date filter, the ordering and the limit. -/
def rentalQueryTail : String :=
  "\x27\n    AND \x60Date_From\x60 <= CURRENT_DATE()\n    ORDER BY \x60Date_From\x60 ASC\n    LIMIT 10\n    "

/-- Meaning of the SQL predicate `d <= CURRENT_DATE()` for a row whose
`Date_From` is the day number `d`, evaluated on the day `today`. -/
def sqlDateLe (d today : Int) : Bool :=
  d ≤ today

/-! ## Embedding of `src/maintenance_agent/agent.py` (module-level values)

The agent definitions are plain Python module-level assignments.  The
instruction texts below are the verbatim string literals of the source; note
that the source does NOT use f-strings, so `{COMPLETION_PHRASE}` (written
here with `\x7b`/`\x7d` escapes) is literal text of the value, not an
interpolation of the constant. -/

/-- Line 13: the model identifier constant. -/
def MODEL : String := "gemini-2.0-flash"

/-- Line 16: the exact phrase the Critic should use to signal completion. -/
def COMPLETION_PHRASE : String := "No major issues found."

/-- The literal placeholder text left in the instruction strings because the
triple-quoted literals are not f-strings. -/
def completionPlaceholder : String := "\x7bCOMPLETION_PHRASE\x7d"

/-- The `instruction` string of `appointment_critic_agent` (verbatim). -/
def appointment_critic_agent_instruction : String :=
  "You are a specialized appointment critic assistance agent.\n    You can check if the appointment is valid and reasonable, taking into account vehicle rentals to minimize service interruption.\n    **Appointments to Review:**\n    \x60\x60\x60\n    \x7b\x7bappointment_scheduling_result\x7d\x7d\n    \x60\x60\x60\n\n    **Task:**\n    Review the appointments for conflicts taking into consideration vehicle rentals and part order delivery times.\n\n    IF you identify 1-2 *clear and actionable* ways the appointment schedule could be improved to avoid conflicts:\n    Provide these specific suggestions concisely. Output *only* the critique text.\n\n    ELSE IF the appointment schedule is not conflicting with any vehicle rentals or part order delivery times:\n    Respond *exactly* with the phrase \"\x7bCOMPLETION_PHRASE\x7d\" and nothing else.\n\n    Do not add explanations. Output only the critique OR the exact completion phrase."

/-- The `instruction` string of `appointment_refinement_agent` (verbatim). -/
def appointment_refinement_agent_instruction : String :=
  "You are a specialized appointment refinement assistance agent refining appointments based on feedback OR exiting the process.\n    **Current Appointments:**\n    \x60\x60\x60\n    \x7b\x7bappointment_scheduling_result\x7d\x7d\n    \x60\x60\x60\n    **Critique/Suggestions:**\n    \x7b\x7bappointment_critic_result\x7d\x7d\n\n    **Task:**\n    Analyze the \x27Critique/Suggestions\x27.\n    IF the critique is *exactly* \"\x7bCOMPLETION_PHRASE\x7d\":\n    You MUST call the \x27exit_loop\x27 function. Do not output any text.\n    ELSE (the critique contains actionable feedback):\n    Carefully apply the suggestions to improve the \x27Current Appointments\x27. Output *only* the refined appointment schedule.\n\n    Do not add explanations. Either output the refined appointment schedule OR call the exit_loop function."

/-! ## Python module evaluation model (name binding)

A Python module body is a sequence of top-level assignments, each binding one
name after evaluating an expression that references previously bound names.
Evaluation stops with `NameError` at the first reference to an unbound name.
`moduleStatements` lists, in source order, each top-level assignment of
`src/maintenance_agent/agent.py` together with the names its right-hand side
references, in evaluation order. -/

/-- Names bound by the `import` statements at the top of
`src/maintenance_agent/agent.py` (lines 1-9). -/
def importedNames : List String :=
  ["Agent", "ParallelAgent", "SequentialAgent", "LoopAgent",
   "fleet_query", "recall_query", "health_query",
   "health_bulk_query", "part_query", "vehicle_appointment_query",
   "vehicle_rental_query", "part_delivery_time_query", "part_order_query", "part_order_list",
   "create_part_order", "create_appointment", "vehicle_query", "vehicle_list",
   "notify",
   "exit_loop"]

/-- The top-level assignments of `src/maintenance_agent/agent.py`, in source
order: bound name and the names referenced by the right-hand side. -/
def moduleStatements : List (String × List String) :=
  [("MODEL", []),
   ("COMPLETION_PHRASE", []),
   ("recall_agent", ["Agent", "MODEL", "recall_query", "vehicle_list"]),
   ("predictive_maintenance_agent", ["Agent", "MODEL", "health_bulk_query", "vehicle_list"]),
   ("part_ordering_agent",
    ["Agent", "MODEL", "part_query", "part_delivery_time_query", "part_order_query",
     "create_part_order"]),
   ("appointment_scheduling_agent", ["Agent", "MODEL", "part_order_list"]),
   ("appointment_critic_agent", ["Agent", "MODEL", "vehicle_rental_query", "part_order_list"]),
   ("appointment_refinement_agent", ["Agent", "MODEL", "exit_loop"]),
   ("appointment_refinement_loop",
    ["LoopAgent", "appointment_critic_agent", "appointment_refinement_agent"]),
   ("appointment_booking_agent", ["Agent", "MODEL_FAST", "create_appointment"]),
   ("sequential_appointment_agent",
    ["SequentialAgent", "appointment_scheduling_agent", "appointment_refinement_loop",
     "appointment_booking_agent"]),
   ("notification_agent", ["Agent", "MODEL", "notify"]),
   ("parallel_maintenance_agent",
    ["ParallelAgent", "predictive_maintenance_agent", "recall_agent"]),
   ("merger_agent", ["Agent", "MODEL"]),
   ("sequential_maintenance_agent",
    ["SequentialAgent", "parallel_maintenance_agent", "merger_agent", "part_ordering_agent",
     "appointment_scheduling_agent", "appointment_refinement_loop"]),
   ("root_agent",
    ["Agent", "sequential_maintenance_agent", "part_ordering_agent",
     "sequential_appointment_agent", "notification_agent"])]

/-- Evaluate a module body: bind each name in turn, failing with Python's
`NameError` message at the first reference to a name not yet bound. -/
def evalPyModule (env : List String) : List (String × List String) → Except String (List String)
  | [] => .ok env
  | (n, refs) :: rest =>
    match refs.find? (fun r => !env.contains r) with
    | some missing => .error ("NameError: name \x27" ++ missing ++ "\x27 is not defined")
    | none => evalPyModule (n :: env) rest

/-! ## The critic/refine/exit loop

Modelled from the spec: the orchestration runtime (`google.adk`'s
`LoopAgent`/`SequentialAgent`) and the `maintenance_agent` tools module
providing `exit_loop` are not under `src/`; sections 3, 4.1-4.4 of the spec
define the shared state slots, the exit tool, the Refiner's exact-match
contract and the bounded loop driver that are modelled here.  The two
external model calls (the Critic's judgement and the Refiner's improvement
step) are parameters. -/

/-- The loop's shared state: the candidate slot
(`appointment_scheduling_result`), the feedback slot
(`appointment_critic_result`) and the termination signal set by the
`exit_loop` tool. -/
structure LoopState where
  candidate : String
  feedback : String
  terminate : Bool
  deriving DecidableEq, Repr

/-- Modelled from the spec: the `exit_loop` signalling tool imported by
`src/maintenance_agent/agent.py` from its tools module (not under `src/`);
per spec 4.1 it "mutates the Termination Signal to true and leaves the
candidate untouched". -/
def exit_loop (st : LoopState) : LoopState :=
  { st with terminate := true }

/-- Modelled from the spec: one Critic step (spec 4.2) writes the feedback it
produces for the current candidate into the feedback slot
(`output_key="appointment_critic_result"`).  `critic` is the external model
call, given the 0-based round index and the candidate. -/
def criticStep (critic : Nat → String → String) (round : Nat) (st : LoopState) : LoopState :=
  { st with feedback := critic round st.candidate }

/-- Modelled from the spec: the Refiner contract (spec 4.3).  If the feedback
equals the termination sentinel `COMPLETION_PHRASE` exactly, it calls
`exit_loop` and leaves the candidate unchanged; otherwise it overwrites the
candidate slot (`output_key="appointment_scheduling_result"`) with the
improved schedule produced by the external model call `improve`. -/
def refine (improve : String → String → String) (st : LoopState) : LoopState :=
  if st.feedback = COMPLETION_PHRASE then exit_loop st
  else { st with candidate := improve st.candidate st.feedback }

/-- `max_iterations` of `appointment_refinement_loop`
(`src/maintenance_agent/agent.py`, line 151). -/
def max_iterations : Nat := 5

/-- Observable pipeline events: the proposing stage, the per-round Critic and
Refiner steps (with the 0-based round index) and the booking (commit)
stage. -/
inductive Ev where
  | schedule
  | criticEv (round : Nat)
  | refineEv (round : Nat)
  | book
  deriving DecidableEq, Repr

/-- Outcome of a loop run: final shared state, number of executed
Critic+Refiner rounds, whether the run converged (termination signal) rather
than exhausting the round budget, and the event trace. -/
structure LoopResult where
  state : LoopState
  rounds : Nat
  converged : Bool
  trace : List Ev
  deriving DecidableEq, Repr

/-- Modelled from the spec: the bounded loop driver (spec 4.1 and the
`LoopAgent` configuration): run Critic then Refiner, then stop if the
termination signal is set, else continue; stop in any case when the round
budget `fuel` is exhausted.  `r` is the number of rounds already executed. -/
def runLoopAux (critic : Nat → String → String) (improve : String → String → String) :
    Nat → Nat → LoopState → LoopResult
  | 0, r, st => ⟨st, r, st.terminate, []⟩
  | fuel + 1, r, st =>
    let st2 := refine improve (criticStep critic r st)
    if st2.terminate then ⟨st2, r + 1, true, [.criticEv r, .refineEv r]⟩
    else
      let rest := runLoopAux critic improve fuel (r + 1) st2
      ⟨rest.state, rest.rounds, rest.converged, .criticEv r :: .refineEv r :: rest.trace⟩

/-- A run of `appointment_refinement_loop`: the driver applied to the
configured budget `max_iterations = 5`. -/
def appointment_refinement_loop_run (critic : Nat → String → String)
    (improve : String → String → String) (st : LoopState) : LoopResult :=
  runLoopAux critic improve max_iterations 0 st

/-- The candidate entering round `j` (0-based) of an uninterrupted run that
starts from candidate `c0`: round `j`'s Refiner overwrites it using the
feedback the Critic gave on it. -/
def candInto (critic : Nat → String → String) (improve : String → String → String)
    (c0 : String) : Nat → String
  | 0 => c0
  | j + 1 =>
    let c := candInto critic improve c0 j
    improve c (critic j c)

/-- The sub-agents of `sequential_appointment_agent`
(`src/maintenance_agent/agent.py`, line 180), in configured order. -/
def sequential_appointment_agent_sub_agents : List String :=
  ["appointment_scheduling_agent", "appointment_refinement_loop", "appointment_booking_agent"]

/-- Modelled from the spec: events contributed by each stage of the
sequential pipeline.  The scheduling stage proposes the initial candidate,
the loop stage contributes its run's trace, the booking stage performs the
commit (spec 4.4: "Runs exactly once, only after the loop terminates"). -/
def stageTrace (critic : Nat → String → String) (improve : String → String → String)
    (st : LoopState) : String → List Ev
  | "appointment_scheduling_agent" => [.schedule]
  | "appointment_refinement_loop" => (appointment_refinement_loop_run critic improve st).trace
  | "appointment_booking_agent" => [.book]
  | _ => []

/-- Modelled from the spec: a `SequentialAgent` runs its sub-agents in listed
order, each to completion, so the pipeline trace is the concatenation of the
stage traces in the configured order. -/
def sequential_appointment_agent_trace (critic : Nat → String → String)
    (improve : String → String → String) (st : LoopState) : List Ev :=
  (sequential_appointment_agent_sub_agents.map (stageTrace critic improve st)).flatten

/-! ## Helper lemmas -/

/-- The driver executes at most `fuel` further rounds beyond the `r` already
executed. -/
theorem runLoopAux_rounds_le (critic : Nat → String → String)
    (improve : String → String → String) :
    ∀ (n r : Nat) (st : LoopState), (runLoopAux critic improve n r st).rounds ≤ r + n := by
  intro n
  induction n with
  | zero => intro r st; simp [runLoopAux]
  | succ n ih =>
    intro r st
    by_cases h : (refine improve (criticStep critic r st)).terminate <;>
      simp only [runLoopAux, h, if_true, if_false]
    · omega
    · have := ih (r + 1) (refine improve (criticStep critic r st))
      simp only [Bool.false_eq_true, if_false]
      omega

/-- The loop stage emits only critic and refiner events, never the booking
event. -/
theorem book_not_in_runLoopAux_trace (critic : Nat → String → String)
    (improve : String → String → String) :
    ∀ (n r : Nat) (st : LoopState), Ev.book ∉ (runLoopAux critic improve n r st).trace := by
  intro n
  induction n with
  | zero => intro r st; simp [runLoopAux]
  | succ n ih =>
    intro r st
    by_cases h : (refine improve (criticStep critic r st)).terminate <;>
      simp [runLoopAux, h]
    exact ih (r + 1) _

/-! ## Claim theorems -/

/-- C1: every run of the appointment refinement loop executes at most the
configured `max_iterations = 5` Critic+Refiner rounds, whatever the external
critic and refiner do, even if the termination signal is never raised. -/
theorem loop_executes_at_most_max_iterations_rounds :
    ∀ (critic : Nat → String → String) (improve : String → String → String) (st : LoopState),
      (appointment_refinement_loop_run critic improve st).rounds ≤ max_iterations ∧
      max_iterations = 5 := by
  intro critic improve st
  refine ⟨?_, rfl⟩
  have h := runLoopAux_rounds_le critic improve max_iterations 0 st
  simpa [appointment_refinement_loop_run] using h

/-- C2: starting from an unset termination signal, the Refiner sets the
termination signal if and only if the feedback in the shared state is exactly
the sentinel `COMPLETION_PHRASE`; any other feedback (including one differing
only in casing or surrounding whitespace) does not trigger termination. -/
theorem refiner_terminates_iff_exact_sentinel (improve : String → String → String)
    (st : LoopState) (h : st.terminate = false) :
    (refine improve st).terminate = true ↔ st.feedback = COMPLETION_PHRASE := by
  by_cases hf : st.feedback = COMPLETION_PHRASE <;> simp [refine, exit_loop, hf, h]

/-- Refiner input used by the C2 witness: the sentinel with a trailing space
in the feedback slot. -/
def trailingSpaceState : LoopState :=
  ⟨"proposed schedule", "No major issues found. ", false⟩

/-- Witness for C2 at feedback `"No major issues found. "` (trailing space):
the instantiated equivalence reduces termination to an exact-match test that
this feedback fails. -/
theorem refiner_terminates_iff_exact_sentinel_witness :
    ((refine (fun c _ => c) trailingSpaceState).terminate = true ↔
      "No major issues found. " = COMPLETION_PHRASE) :=
  refiner_terminates_iff_exact_sentinel (fun c _ => c) trailingSpaceState rfl

/-- C7: `db_query` invokes the BigQuery client exactly once (no automatic
retry); every raised exception is caught and surfaced to the caller as the
error dict `{"error": "An error occured with BigQuery: <e>"}`, and a
successful call returns the converted rows. -/
theorem db_query_reports_failure_without_retry :
    (∀ (client : String → BQOutcome) (query : String), (db_query client query).2 = 1) ∧
    (∀ (msg query : String),
      db_query (fun _ => .raises msg) query =
        (.errorDict ("An error occured with BigQuery: " ++ msg), 1)) ∧
    (∀ (rs : List Row) (query : String),
      db_query (fun _ => .rows rs) query = (.data (rs.map convertRow), 1)) := by
  refine ⟨fun client query => ?_, fun msg query => rfl, fun rs query => rfl⟩
  cases h : client query <;> simp [db_query, h]

/-- C9: `notify` returns exactly the success dict `{"status": "success"}` for
every message; its except branch is unreachable, so a notification can never
be reported as failed. -/
theorem notify_always_success :
    ∀ message : String,
      notify message = [("status", "success")] ∧
      ∀ e : String, notify message ≠ [("error", e)] := by
  intro message
  refine ⟨rfl, fun e h => ?_⟩
  simp [notify, notifyBody] at h

/-- C4 (evidence of the code bug): because the two instruction literals are
not f-strings, the sentinel value `COMPLETION_PHRASE` occurs nowhere in
either agent's instruction text; instead the uninterpolated placeholder text
`{COMPLETION_PHRASE}` occurs exactly once in each. -/
theorem completion_phrase_absent_from_instructions :
    occurrencesIn COMPLETION_PHRASE appointment_critic_agent_instruction = 0 ∧
    occurrencesIn COMPLETION_PHRASE appointment_refinement_agent_instruction = 0 ∧
    occurrencesIn completionPlaceholder appointment_critic_agent_instruction = 1 ∧
    occurrencesIn completionPlaceholder appointment_refinement_agent_instruction = 1 := by
  refine ⟨?_, ?_, ?_, ?_⟩ <;> decide

/-- C8: the SQL text built by `vehicle_rental_query` is the fixed head, the
interpolated vehicle id, and a fixed tail whose one date condition is
`Date_From <= CURRENT_DATE()`; under the meaning of that predicate a rental
starting strictly after the current date is never requested, while its
docstring promises the future rental dates. -/
theorem vehicle_rental_query_requests_only_started_rentals :
    ∀ (vehicle_id : String) (today : Int),
      vehicle_rental_query_sql vehicle_id =
        rentalQueryHead ++ vehicle_id ++ rentalQueryTail ∧
      occurrencesIn "AND \x60Date_From\x60 <= CURRENT_DATE()" rentalQueryTail = 1 ∧
      (∀ d : Int, sqlDateLe d today = true ↔ d ≤ today) ∧
      sqlDateLe (today + 1) today = false ∧
      occurrencesIn "future rental dates" vehicle_rental_query_docstring = 2 := by
  intro vehicle_id today
  refine ⟨rfl, by decide, fun d => ?_, ?_, by decide⟩
  · simp [sqlDateLe]
  · simp [sqlDateLe]

/-- C10: evaluating the module body of `src/maintenance_agent/agent.py`
fails with `NameError` on `MODEL_FAST` (referenced by
`appointment_booking_agent` but bound neither by an import nor by any
assignment, unlike `MODEL`), so no agent of that module is ever
constructed. -/
theorem maintenance_module_raises_nameerror :
    evalPyModule importedNames moduleStatements =
      .error "NameError: name \x27MODEL_FAST\x27 is not defined" ∧
    moduleStatements.all (fun p => p.1 != "MODEL_FAST") = true ∧
    importedNames.contains "MODEL_FAST" = false ∧
    (moduleStatements.map Prod.fst).contains "MODEL" = true := by
  refine ⟨rfl, by decide, by decide, by decide⟩

/-- Observable outcome of a loop run: executed rounds, convergence flag and
final state (the trace projected away). -/
def obs (res : LoopResult) : Nat × Bool × LoopState :=
  (res.rounds, res.converged, res.state)

/-- Rebuilding a result with a different trace leaves the observable outcome
unchanged. -/
@[simp]
theorem obs_retrace (a : LoopResult) (tr : List Ev) :
    obs ⟨a.state, a.rounds, a.converged, tr⟩ = obs a := rfl

/-- Driving through a window of `k` rounds in which the critic never emits
the sentinel advances the round counter and the candidate slot by `k`
rounds, leaving some feedback in the feedback slot. -/
theorem runLoopAux_quiet_window (critic : Nat → String → String)
    (improve : String → String → String) (c0 : String) :
    ∀ (k fuel r : Nat) (fb0 : String),
      (∀ j, r ≤ j → j < r + k →
        critic j (candInto critic improve c0 j) ≠ COMPLETION_PHRASE) →
      ∃ fb1 : String,
        obs (runLoopAux critic improve (k + fuel) r
          ⟨candInto critic improve c0 r, fb0, false⟩) =
        obs (runLoopAux critic improve fuel (r + k)
          ⟨candInto critic improve c0 (r + k), fb1, false⟩) := by
  intro k
  induction k with
  | zero =>
    intro fuel r fb0 _
    exact ⟨fb0, by simp⟩
  | succ k ih =>
    intro fuel r fb0 h
    have hq : critic r (candInto critic improve c0 r) ≠ COMPLETION_PHRASE :=
      h r (Nat.le_refl r) (by omega)
    have efuel : k + 1 + fuel = (k + fuel) + 1 := by omega
    rw [efuel]
    simp only [runLoopAux, criticStep, refine, exit_loop, hq, if_false, ite_false,
      Bool.false_eq_true]
    have hc : improve (candInto critic improve c0 r)
        (critic r (candInto critic improve c0 r)) = candInto critic improve c0 (r + 1) := rfl
    rw [hc]
    obtain ⟨fb1, heq⟩ := ih fuel (r + 1) (critic r (candInto critic improve c0 r))
      (fun j h1 h2 => h j (by omega) (by omega))
    have e2 : r + 1 + k = r + (k + 1) := by omega
    rw [e2] at heq
    exact ⟨fb1, by simpa using heq⟩

/-- When the critic emits the exact sentinel in the current round, one more
round runs: the refiner calls `exit_loop`, the candidate slot is untouched
and the driver stops with the convergence flag set. -/
theorem runLoopAux_sentinel_step (critic : Nat → String → String)
    (improve : String → String → String) (c0 : String) (fuel r : Nat) (fb0 : String)
    (hsent : critic r (candInto critic improve c0 r) = COMPLETION_PHRASE) :
    runLoopAux critic improve (fuel + 1) r ⟨candInto critic improve c0 r, fb0, false⟩ =
      ⟨⟨candInto critic improve c0 r, COMPLETION_PHRASE, true⟩, r + 1, true,
        [.criticEv r, .refineEv r]⟩ := by
  simp [runLoopAux, criticStep, refine, exit_loop, hsent]

/-- C3: if the Critic returns the exact sentinel in round `k + 1` (0-based
index `k`) and actionable feedback before, the loop stops after that round,
reports convergence, and the terminating Refiner step leaves the candidate
slot exactly as the previous round's Refiner produced it. -/
theorem sentinel_stops_loop_preserving_candidate
    (critic : Nat → String → String) (improve : String → String → String)
    (st : LoopState) (k : Nat)
    (hterm : st.terminate = false)
    (hk : k < max_iterations)
    (hsent : critic k (candInto critic improve st.candidate k) = COMPLETION_PHRASE)
    (hbefore : ∀ j, j < k →
      critic j (candInto critic improve st.candidate j) ≠ COMPLETION_PHRASE) :
    (appointment_refinement_loop_run critic improve st).rounds = k + 1 ∧
    (appointment_refinement_loop_run critic improve st).converged = true ∧
    (appointment_refinement_loop_run critic improve st).state.candidate =
      candInto critic improve st.candidate k := by
  obtain ⟨c0, fb0, t⟩ := st
  simp only at hterm hsent hbefore ⊢
  subst hterm
  obtain ⟨fb1, heq⟩ := runLoopAux_quiet_window critic improve c0 k ((4 - k) + 1) 0 fb0
    (fun j h1 h2 => hbefore j (by omega))
  have hk5 : k < 5 := hk
  have e5 : k + ((4 - k) + 1) = max_iterations := by
    show k + ((4 - k) + 1) = 5
    omega
  rw [e5] at heq
  have ec : candInto critic improve c0 0 = c0 := rfl
  rw [ec, Nat.zero_add] at heq
  rw [runLoopAux_sentinel_step critic improve c0 (4 - k) k fb1 hsent] at heq
  have heq' : obs (appointment_refinement_loop_run critic improve ⟨c0, fb0, false⟩) =
      obs ⟨⟨candInto critic improve c0 k, COMPLETION_PHRASE, true⟩, k + 1, true,
        [.criticEv k, .refineEv k]⟩ := heq
  have h1 := congrArg (fun p => p.1) heq'
  have h2 := congrArg (fun p => p.2.1) heq'
  have h3 := congrArg (fun p => p.2.2.candidate) heq'
  simp only [obs] at h1 h2 h3
  exact ⟨h1, h2, h3⟩

/-- Critic used by the C3 witness: the sentinel immediately in round 1. -/
def immediateSentinelCritic : Nat → String → String :=
  fun r _ => if r == 0 then COMPLETION_PHRASE else "shift the second appointment"

/-- Refiner improvement step used by the loop witnesses. -/
def appendFeedbackImprove : String → String → String :=
  fun c f => c ++ " / " ++ f

/-- Initial shared state used by the loop witnesses. -/
def initialProposalState : LoopState :=
  ⟨"initial proposal", "", false⟩

/-- Witness for C3: with a critic that emits the sentinel in the first round,
the loop run stops after one round, converged, with the initial candidate
untouched. -/
theorem sentinel_stops_loop_preserving_candidate_witness :
    (appointment_refinement_loop_run immediateSentinelCritic appendFeedbackImprove
      initialProposalState).rounds = 0 + 1 ∧
    (appointment_refinement_loop_run immediateSentinelCritic appendFeedbackImprove
      initialProposalState).converged = true ∧
    (appointment_refinement_loop_run immediateSentinelCritic appendFeedbackImprove
      initialProposalState).state.candidate =
      candInto immediateSentinelCritic appendFeedbackImprove
        initialProposalState.candidate 0 :=
  sentinel_stops_loop_preserving_candidate immediateSentinelCritic appendFeedbackImprove
    initialProposalState 0 rfl (by decide) rfl (fun j hj => absurd hj (Nat.not_lt_zero j))

/-- C6: if the Critic never emits the sentinel, the loop ends normally after
exactly `max_iterations` rounds in a terminal state that is observably
non-converged (flag false, signal unset), carrying the last Refiner output
as the candidate. -/
theorem round_exhaustion_is_normal_distinct_outcome
    (critic : Nat → String → String) (improve : String → String → String)
    (st : LoopState)
    (hterm : st.terminate = false)
    (hnever : ∀ j, j < max_iterations →
      critic j (candInto critic improve st.candidate j) ≠ COMPLETION_PHRASE) :
    (appointment_refinement_loop_run critic improve st).rounds = max_iterations ∧
    (appointment_refinement_loop_run critic improve st).converged = false ∧
    (appointment_refinement_loop_run critic improve st).state.terminate = false ∧
    (appointment_refinement_loop_run critic improve st).state.candidate =
      candInto critic improve st.candidate max_iterations := by
  obtain ⟨c0, fb0, t⟩ := st
  simp only at hterm hnever ⊢
  subst hterm
  obtain ⟨fb1, heq⟩ := runLoopAux_quiet_window critic improve c0 max_iterations 0 0 fb0
    (fun j h1 h2 => hnever j (by simpa [max_iterations] using h2))
  have e5 : max_iterations + 0 = max_iterations := by omega
  rw [e5] at heq
  have ec : candInto critic improve c0 0 = c0 := rfl
  rw [ec, Nat.zero_add] at heq
  have heq' : obs (appointment_refinement_loop_run critic improve ⟨c0, fb0, false⟩) =
      obs ⟨⟨candInto critic improve c0 max_iterations, fb1, false⟩, max_iterations,
        false, []⟩ := heq
  have h1 := congrArg (fun p => p.1) heq'
  have h2 := congrArg (fun p => p.2.1) heq'
  have h3 := congrArg (fun p => p.2.2.terminate) heq'
  have h4 := congrArg (fun p => p.2.2.candidate) heq'
  simp only [obs] at h1 h2 h3 h4
  exact ⟨h1, h2, h3, h4⟩

/-- Critic used by the C6 witness: always actionable feedback, never the
sentinel. -/
def neverSentinelCritic : Nat → String → String :=
  fun _ _ => "move the appointment after the rental window"

/-- Witness for C6: with a critic that never emits the sentinel, the run
exhausts all five rounds and ends non-converged with the last refined
candidate. -/
theorem round_exhaustion_is_normal_distinct_outcome_witness :
    (appointment_refinement_loop_run neverSentinelCritic appendFeedbackImprove
      initialProposalState).rounds = max_iterations ∧
    (appointment_refinement_loop_run neverSentinelCritic appendFeedbackImprove
      initialProposalState).converged = false ∧
    (appointment_refinement_loop_run neverSentinelCritic appendFeedbackImprove
      initialProposalState).state.terminate = false ∧
    (appointment_refinement_loop_run neverSentinelCritic appendFeedbackImprove
      initialProposalState).state.candidate =
      candInto neverSentinelCritic appendFeedbackImprove
        initialProposalState.candidate max_iterations := by
  refine round_exhaustion_is_normal_distinct_outcome neverSentinelCritic
    appendFeedbackImprove initialProposalState rfl ?_
  intro j hj
  show ("move the appointment after the rental window" : String) ≠ COMPLETION_PHRASE
  decide

/-- C5: in every run of the appointment pipeline the booking (commit) event
occurs exactly once, strictly after every event of the scheduling stage and
of the refinement loop, whether the loop converged or exhausted its
rounds. -/
theorem booking_runs_once_after_loop :
    ∀ (critic : Nat → String → String) (improve : String → String → String) (st : LoopState),
      ∃ pre : List Ev,
        sequential_appointment_agent_trace critic improve st = pre ++ [Ev.book] ∧
        Ev.book ∉ pre ∧
        (sequential_appointment_agent_trace critic improve st).count Ev.book = 1 := by
  intro critic improve st
  have htr : sequential_appointment_agent_trace critic improve st =
      (Ev.schedule :: (appointment_refinement_loop_run critic improve st).trace) ++
        [Ev.book] := by
    simp [sequential_appointment_agent_trace, sequential_appointment_agent_sub_agents,
      stageTrace]
  have hnb : Ev.book ∉
      Ev.schedule :: (appointment_refinement_loop_run critic improve st).trace := by
    intro hmem
    rcases List.mem_cons.mp hmem with hmem | hmem
    · exact absurd hmem (by decide)
    · exact book_not_in_runLoopAux_trace critic improve max_iterations 0 st hmem
  refine ⟨_, htr, hnb, ?_⟩
  rw [htr, List.count_append]
  simp [List.count_eq_zero.mpr hnb]

/-- Witness for C5 at a concrete critic, refiner and initial state: the
pipeline trace carries exactly one booking event. -/
theorem booking_runs_once_after_loop_witness :
    (sequential_appointment_agent_trace immediateSentinelCritic appendFeedbackImprove
      initialProposalState).count Ev.book = 1 := by
  obtain ⟨pre, hpre, hnb, hcount⟩ := booking_runs_once_after_loop immediateSentinelCritic
    appendFeedbackImprove initialProposalState
  exact hcount

/-- Witness for C9 at the concrete message `"hello"` and candidate error
payload `"boom"`. -/
theorem notify_always_success_witness :
    notify "hello" = [("status", "success")] ∧ notify "hello" ≠ [("error", "boom")] :=
  ⟨(notify_always_success "hello").1, (notify_always_success "hello").2 "boom"⟩

end FleetManagement
